import Mathlib

/-!
Verification of the rapport-http request builder and response-translation
protocol (`src/lib/websocket/http.js`, verb adapter `src/lib/websocket/get.js`).

The JavaScript source is shallowly embedded: JS runtime values are the
inductive type `Value`, JS objects are insertion-ordered association lists,
fallible operations (property assignment in strict mode, the builder's
validating mutators) return `Except JsError _`, and the terminal `send`
dispatch is modelled as a pure function from the builder state, the presence
of a caller callback, and the transport's behaviour to an observable effect.
-/

set_option autoImplicit false

namespace RapportHttp

/-- A JavaScript runtime value, restricted to what the embedded code can
produce and consume: `undefined`, `null`, booleans, numbers (the claims only
exercise integer values, so numbers are modelled as `Int`), strings, arrays
and plain objects.  Objects are insertion-ordered association lists, matching
the stable key-ordered iteration the code relies on. -/
inductive Value where
  | vundefined : Value
  | vnull : Value
  | vbool : Bool → Value
  | vnum : Int → Value
  | vstr : String → Value
  | varr : List Value → Value
  | vobj : List (String × Value) → Value
  deriving Repr

/-- A thrown JavaScript error.  The embedded code only ever throws
`TypeError`s (explicitly, or implicitly via strict-mode property creation on
a primitive). -/
inductive JsError where
  | typeError : String → JsError
  deriving Repr, DecidableEq

namespace Value

/-- Modelled from the spec: the external utility predicate `isString`
(`util.isString`), a boolean classifier that is true exactly on strings. -/
def isString : Value → Bool
  | .vstr _ => true
  | _ => false

/-- Modelled from the spec: the external utility predicate `isNumber`
(`util.isNumber`), true exactly on numbers. -/
def isNumber : Value → Bool
  | .vnum _ => true
  | _ => false

/-- Modelled from the spec: the external utility predicate `isArray`
(`util.isArray`), true exactly on arrays. -/
def isArray : Value → Bool
  | .varr _ => true
  | _ => false

/-- Modelled from the spec: the external utility predicate `isObject`
(`util.isObject`), true exactly on plain mappings (the spec's `body`
contract treats arrays and every other non-mapping value as a wholesale
replacement, so arrays are not objects for this predicate). -/
def isObject : Value → Bool
  | .vobj _ => true
  | _ => false

/-- JavaScript truthiness, as used by `if (res)`, `if (query)` and
`if (!http._expectResponse)` in the source. -/
def truthy : Value → Bool
  | .vundefined => false
  | .vnull => false
  | .vbool b => b
  | .vnum n => n != 0
  | .vstr s => !s.isEmpty
  | .varr _ => true
  | .vobj _ => true

end Value

mutual

/-- JavaScript ToString on a value.  The source uses it through
template-literal interpolation, where the interpolated value is coerced to a
string before being handed to `encodeURIComponent`, and through the default
array conversion, which is a comma-separated join. -/
def jsToString : Value → String
  | .vundefined => "undefined"
  | .vnull => "null"
  | .vbool b => cond b "true" "false"
  | .vnum n => toString n
  | .vstr s => s
  | .vobj _ => "[object Object]"
  | .varr elems => jsJoinList "," elems
termination_by v => (sizeOf v, 0)

/-- Model of JavaScript `Array.prototype.join`: elements separated by `sep`,
each converted by `jsJoinElem`.  Used by the source as `query.join` with an
ampersand separator on the array branch of `query`. -/
def jsJoinList (sep : String) : List Value → String
  | [] => ""
  | [e] => jsJoinElem e
  | e :: rest => jsJoinElem e ++ sep ++ jsJoinList sep rest
termination_by l => (sizeOf l, 2)

/-- Element conversion inside `Array.prototype.join`: `null` and `undefined`
become the empty string, everything else is converted by `jsToString`. -/
def jsJoinElem : Value → String
  | .vundefined => ""
  | .vnull => ""
  | v => jsToString v
termination_by v => (sizeOf v, 1)

end

namespace Value

/-- The first entry of an association list with the given key, if any. -/
def findEntry? : List (String × Value) → String → Option (String × Value)
  | [], _ => none
  | p :: rest, k => if p.1 == k then some p else findEntry? rest k

/-- Whether an association list carries the given key. -/
def hasKey (fields : List (String × Value)) (k : String) : Bool :=
  (findEntry? fields k).isSome

/-- Replace the value of every entry with key `k` (entries keep their
position, as JS property assignment does). -/
def updateEntries : List (String × Value) → String → Value → List (String × Value)
  | [], _, _ => []
  | p :: rest, k, v => (if p.1 == k then (k, v) else p) :: updateEntries rest k v

/-- Update an association list at key `k` in place when the key exists, or
append `(k, v)` when it is absent. -/
def setFields (fields : List (String × Value)) (k : String) (v : Value) :
    List (String × Value) :=
  if hasKey fields k then updateEntries fields k v else fields ++ [(k, v)]

/-- Strict-mode property assignment `target[k] = v`.  Creating a property on
a plain object updates or appends the entry; on an array it succeeds in JS
but attaches a named property that no code path of this module ever reads
back, so the model keeps the array unchanged; on a primitive or `null` it
throws a `TypeError` (the file is under `use strict`). -/
def setProp : Value → String → Value → Except JsError Value
  | .vobj fields, k, v => .ok (.vobj (setFields fields k v))
  | .varr elems, _, _ => .ok (.varr elems)
  | _, _, _ => .error (.typeError "Cannot create property on a non-object")

/-- Property read `target[k]`: the first matching entry of a plain object,
`undefined` otherwise (missing keys, arrays, primitives). -/
def getProp : Value → String → Value
  | .vobj fields, k => ((findEntry? fields k).map Prod.snd).getD .vundefined
  | _, _ => .vundefined

/-- `delete target[k]`: removes the key from a plain object, is a no-op on
every other value (strict-mode `delete` on a configurable or absent property
does not throw). -/
def delProp : Value → String → Value
  | .vobj fields, k => .vobj (fields.filter (fun p => p.1 != k))
  | v, _ => v

end Value

/-- From `src/lib/websocket/http.js` lines 18-28 (`translateResponse`): on a
truthy value, `res.status = res._s; delete res._s; res.body = res._b;
delete res._b;` and return the same reference; on a falsy value, return it
unchanged.  Strict-mode property creation on a truthy primitive throws, so
the result is `Except`. -/
def translateResponse (res : Value) : Except JsError Value :=
  if res.truthy then do
    let r1 ← res.setProp "status" (res.getProp "_s")
    let r2 := r1.delProp "_s"
    let r3 ← r2.setProp "body" (r2.getProp "_b")
    .ok (r3.delProp "_b")
  else
    .ok res

/-- Hexadecimal digit (uppercase), for percent-encoding. -/
def hexDigit (n : Nat) : Char :=
  if n < 10 then Char.ofNat (48 + n) else Char.ofNat (55 + n)

/-- UTF-8 bytes of a Unicode code point, from first principles so that the
kernel can evaluate it. -/
def utf8Bytes (n : Nat) : List Nat :=
  if n < 0x80 then [n]
  else if n < 0x800 then [0xC0 + n / 64, 0x80 + n % 64]
  else if n < 0x10000 then [0xE0 + n / 4096, 0x80 + (n / 64) % 64, 0x80 + n % 64]
  else [0xF0 + n / 262144, 0x80 + (n / 4096) % 64, 0x80 + (n / 64) % 64, 0x80 + n % 64]

/-- Percent-encoding of one byte: a percent sign followed by two uppercase
hex digits. -/
def percentByte (b : Nat) : String :=
  String.mk [Char.ofNat 37, hexDigit (b / 16), hexDigit (b % 16)]

/-- The characters `encodeURIComponent` leaves unescaped: ASCII letters,
digits, and `- _ . ! ~ * ( )` together with the apostrophe (code 39). -/
def isUnescaped (c : Char) : Bool :=
  (65 ≤ c.toNat && c.toNat ≤ 90) || (97 ≤ c.toNat && c.toNat ≤ 122) ||
  (48 ≤ c.toNat && c.toNat ≤ 57) ||
  c == Char.ofNat 45 || c == Char.ofNat 95 || c == Char.ofNat 46 ||
  c == Char.ofNat 33 || c == Char.ofNat 126 || c == Char.ofNat 42 ||
  c == Char.ofNat 39 || c == Char.ofNat 40 || c == Char.ofNat 41

/-- JavaScript `encodeURIComponent` on a string: unescaped characters pass
through, every other character is replaced by the percent-encoding of its
UTF-8 bytes. -/
def encodeURIComponent (s : String) : String :=
  String.join (s.data.map (fun c =>
    if isUnescaped c then String.singleton c
    else String.join ((utf8Bytes c.toNat).map percentByte)))

/-- The state of the request builder object created by the module export of
`src/lib/websocket/http.js` (lines 49-55): accumulated method, url, body,
timeout and response-expectation flag.  Method and url are validated as
strings at construction, so they are carried as `String`; the
response-expectation field stores whatever value the caller passed to
`expectResponse` (the source does not coerce it), so it is a `Value`. -/
structure Http where
  _method : String
  _url : String
  _body : Value
  _timeout : Int
  _expectResponse : Value
  deriving Repr

/-- The builder state immediately after a successful construction
(`_body: {}`, `_timeout: 0`, `_expectResponse: true`). -/
def httpInit (method url : String) : Http :=
  { _method := method, _url := url, _body := .vobj [], _timeout := 0,
    _expectResponse := .vbool true }

/-- From `src/lib/websocket/http.js` lines 39-55 (the module export): throw
a `TypeError` when the method is not a string, then throw when the url is
not a string, otherwise return the freshly initialised builder.  The
constructor touches no transport state. -/
def mkHttp (method url : Value) : Except JsError Http :=
  if !method.isString then .error (.typeError "HTTP method must be a string")
  else if !url.isString then .error (.typeError "HTTP URL must be a string")
  else match method, url with
    | .vstr m, .vstr u => .ok (httpInit m u)
    | _, _ => .error (.typeError "HTTP method must be a string")

/-- From `src/lib/websocket/get.js`, with the transport wiring modelled from
the spec: the verb adapter instantiates a request builder bound to the
literal method string, here the get verb. -/
def get (route : Value) : Except JsError Http :=
  mkHttp (.vstr "get") route

/-- From `src/lib/websocket/http.js` lines 64-74 (`body`): when the argument
is a plain mapping, assign each of its entries onto the accumulated body in
iteration order (strict-mode assignment, which throws when the accumulated
body is a primitive or null); otherwise overwrite the accumulated body with
the argument. -/
def Http.body (h : Http) (b : Value) : Except JsError Http :=
  match b with
  | .vobj fields => do
      let merged ← fields.foldlM (fun acc p => acc.setProp p.1 p.2) h._body
      .ok { h with _body := merged }
  | _ => .ok { h with _body := b }

/-- From `src/lib/websocket/http.js` lines 107-111: append a computed query
string to the url, joining with an ampersand when the url already contains a
question mark (`indexOf >= 0`) and with a question mark otherwise. -/
def joinUrl (u qs : String) : String :=
  if u.data.contains (Char.ofNat 63) then u ++ "&" ++ qs else u ++ "?" ++ qs

/-- From `src/lib/websocket/http.js` lines 86-104: the query string computed
for a truthy query argument.  A string is taken verbatim, an array is joined
with ampersands, a mapping becomes percent-encoded key=value pairs joined
with ampersands, and any other shape throws a `TypeError`.  The branch order
matches the if/else chain (`isString`, `isArray`, `isObject`, throw). -/
def queryStringOf : Value → Except JsError String
  | .vstr s => .ok s
  | .varr elems => .ok (jsJoinList "&" elems)
  | .vobj fields => .ok (String.intercalate "&"
      (fields.map (fun p =>
        encodeURIComponent p.1 ++ "=" ++ encodeURIComponent (jsToString p.2))))
  | _ => .error (.typeError "Query must be a url encoded string, object, or array")

/-- From `src/lib/websocket/http.js` lines 84-114 (`query`): falsy arguments
are a no-op; otherwise compute the query string (which may throw before the
url is touched) and append it with the separator rule of `joinUrl`. -/
def Http.query (h : Http) (q : Value) : Except JsError Http :=
  if q.truthy then
    match queryStringOf q with
    | .ok qs => .ok { h with _url := joinUrl h._url qs }
    | .error e => .error e
  else .ok h

/-- From `src/lib/websocket/http.js` lines 122-131 (`timeout`): throw a
`TypeError` when the argument is not numeric; store it only when it is
strictly positive. -/
def Http.timeout (h : Http) : Value → Except JsError Http
  | .vnum n => .ok (if 0 < n then { h with _timeout := n } else h)
  | _ => .error (.typeError "Timeout must be a numeric value")

/-- From `src/lib/websocket/http.js` lines 140-143 (`expectResponse`): store
the flag unconditionally. -/
def Http.expectResponse (h : Http) (flag : Value) : Http :=
  { h with _expectResponse := flag }

/-- From `src/lib/websocket/http.js` lines 152-156: the wire envelope built
by `send` (the source names the local variable `body`): a mapping with
exactly the keys `_m`, `_u` and `_b`, holding the accumulated method, url
and body. -/
def Http.envelope (h : Http) : Value :=
  .vobj [("_m", .vstr h._method), ("_u", .vstr h._url), ("_b", h._body)]

/-- The behaviour of the transport collaborator (the wrapped socket) during
one `send`: whether its fire-and-forget `send` throws (and with what), the
argument pair it passes to the `request` callback in callback flow, and the
settled outcome of the promise it returns in promise flow. -/
structure Transport where
  sendThrows : Option Value
  requestReply : Value × Value
  requestOutcome : Except Value Value

/-- The observable outcome of one call to the terminal `send` operation. -/
inductive SendEffect where
  /-- Fire-and-forget dispatch succeeded: nothing returned, no callback
  invoked, no promise created. -/
  | silent : SendEffect
  /-- Fire-and-forget dispatch threw with a callback supplied: the callback
  was invoked with the two given arguments and nothing was returned. -/
  | cbFired : Value → Value → SendEffect
  /-- Fire-and-forget dispatch threw with no callback: a rejected promise
  with the given reason was returned, built with the configured promise
  constructor (`options.Promise.reject`). -/
  | rejectedPromise : Value → SendEffect
  /-- The request operation was dispatched with the given envelope and
  timeout and its callback wrapper forwarded the two given translated
  arguments to the caller callback. -/
  | requestedCb : Value → Int → Value → Value → SendEffect
  /-- The request operation was dispatched with the given envelope and
  timeout but translating the reply threw inside the callback wrapper. -/
  | requestedCbThrew : Value → Int → JsError → SendEffect
  /-- The request operation was dispatched with the given envelope and
  timeout in promise flow; the returned promise settled with the given
  translated outcome. -/
  | promised : Value → Int → Except Value Value → SendEffect
  /-- The request operation was dispatched with the given envelope and
  timeout in promise flow but the translation step threw inside `then`. -/
  | promisedThrew : Value → Int → JsError → SendEffect
  deriving Repr

/-- From `src/lib/websocket/http.js` lines 151-186 (`send`): build the wire
envelope; when the stored response-expectation value is falsy, do the
fire-and-forget dispatch and report a thrown error on the callback or as a
rejected promise; otherwise dispatch the request in callback flow (the
wrapper translates the response argument, then the error argument, before
forwarding) or promise flow (fulfillment is translated and re-delivered,
rejection is translated and re-thrown). -/
def Http.send (h : Http) (hasCb : Bool) (tr : Transport) : SendEffect :=
  let env := h.envelope
  if !h._expectResponse.truthy then
    match tr.sendThrows with
    | none => .silent
    | some err => if !hasCb then .rejectedPromise err else .cbFired .vnull err
  else if hasCb then
    match translateResponse tr.requestReply.1 with
    | .error e => .requestedCbThrew env h._timeout e
    | .ok res => match translateResponse tr.requestReply.2 with
      | .error e => .requestedCbThrew env h._timeout e
      | .ok err => .requestedCb env h._timeout res err
  else
    match tr.requestOutcome with
    | .ok res => match translateResponse res with
      | .ok v => .promised env h._timeout (.ok v)
      | .error e => .promisedThrew env h._timeout e
    | .error err => match translateResponse err with
      | .ok v => .promised env h._timeout (.error v)
      | .error e => .promisedThrew env h._timeout e

/-- The envelope and timeout a `send` outcome handed to the transport
request operation, when it did. -/
def SendEffect.requestedWith : SendEffect → Option (Value × Int)
  | .requestedCb env t _ _ => some (env, t)
  | .requestedCbThrew env t _ => some (env, t)
  | .promised env t _ => some (env, t)
  | .promisedThrew env t _ => some (env, t)
  | _ => none

/-! ### Helper lemmas about the object model -/

namespace Value

theorem findEntry?_updateEntries_self (fs : List (String × Value)) (k : String) (v : Value)
    (h : hasKey fs k = true) :
    findEntry? (updateEntries fs k v) k = some (k, v) := by
  induction fs with
  | nil => simp [hasKey, findEntry?] at h
  | cons p rest ih =>
    by_cases hp : (p.1 == k) = true
    · simp [updateEntries, findEntry?, hp]
    · simp only [hasKey, findEntry?, hp, if_false, Bool.false_eq_true] at h
      simp [updateEntries, findEntry?, hp, ih h]

theorem findEntry?_updateEntries_ne (fs : List (String × Value)) (k k2 : String) (v : Value)
    (hne : k ≠ k2) :
    findEntry? (updateEntries fs k v) k2 = findEntry? fs k2 := by
  induction fs with
  | nil => rfl
  | cons p rest ih =>
    by_cases hp : (p.1 == k) = true
    · have hp1 : p.1 = k := by simpa using hp
      simp [updateEntries, findEntry?, hp, hp1, hne, ih]
    · simp only [updateEntries, hp, if_false]
      by_cases hq : (p.1 == k2) = true
      · simp [findEntry?, hq]
      · simp [findEntry?, hq, ih]

theorem findEntry?_append_single_self (fs : List (String × Value)) (k : String) (v : Value)
    (h : hasKey fs k = false) :
    findEntry? (fs ++ [(k, v)]) k = some (k, v) := by
  induction fs with
  | nil => simp [findEntry?]
  | cons p rest ih =>
    by_cases hp : (p.1 == k) = true
    · simp [hasKey, findEntry?, hp] at h
    · simp only [hasKey, findEntry?, hp, if_false] at h
      simp [findEntry?, hp, ih h]

theorem findEntry?_append_single_ne (fs : List (String × Value)) (k k2 : String) (v : Value)
    (hne : k ≠ k2) :
    findEntry? (fs ++ [(k, v)]) k2 = findEntry? fs k2 := by
  induction fs with
  | nil => simp [findEntry?, hne]
  | cons p rest ih =>
    by_cases hq : (p.1 == k2) = true
    · simp [findEntry?, hq]
    · simp [findEntry?, hq, ih]

theorem getProp_setFields_self (fs : List (String × Value)) (k : String) (v : Value) :
    getProp (.vobj (setFields fs k v)) k = v := by
  unfold getProp setFields
  by_cases h : hasKey fs k = true
  · simp [h, findEntry?_updateEntries_self fs k v h]
  · simp only [h, if_false, Bool.false_eq_true]
    simp [findEntry?_append_single_self fs k v (by simpa using h)]

theorem getProp_setFields_ne (fs : List (String × Value)) (k k2 : String) (v : Value)
    (hne : k ≠ k2) :
    getProp (.vobj (setFields fs k v)) k2 = getProp (.vobj fs) k2 := by
  unfold getProp setFields
  by_cases h : hasKey fs k = true
  · simp [h, findEntry?_updateEntries_ne fs k k2 v hne]
  · simp only [h, if_false, Bool.false_eq_true]
    simp [findEntry?_append_single_ne fs k k2 v hne]

theorem findEntry?_filter_ne (fs : List (String × Value)) (k k2 : String) (hne : k ≠ k2) :
    findEntry? (fs.filter (fun p => p.1 != k)) k2 = findEntry? fs k2 := by
  induction fs with
  | nil => rfl
  | cons p rest ih =>
    by_cases hp : (p.1 == k) = true
    · have hp1 : p.1 = k := by simpa using hp
      have hp2 : (p.1 == k2) = false := by simp [hp1, hne]
      rw [List.filter_cons_of_neg (by simp [hp1])]
      simp [findEntry?, hp2, ih]
    · rw [List.filter_cons_of_pos (by simpa using hp)]
      by_cases hq : (p.1 == k2) = true
      · simp [findEntry?, hq]
      · simp [findEntry?, hq, ih]

theorem getProp_filter_ne (fs : List (String × Value)) (k k2 : String) (hne : k ≠ k2) :
    getProp (.vobj (fs.filter (fun p => p.1 != k))) k2 = getProp (.vobj fs) k2 := by
  simp only [getProp]
  rw [findEntry?_filter_ne fs k k2 hne]

theorem mem_updateEntries (fs : List (String × Value)) (k : String) (v : Value)
    (p : String × Value) (hp : p ∈ updateEntries fs k v) : p.1 = k ∨ p ∈ fs := by
  induction fs with
  | nil => simp [updateEntries] at hp
  | cons q rest ih =>
    simp only [updateEntries, List.mem_cons] at hp
    rcases hp with hp | hp
    · by_cases hqk : (q.1 == k) = true
      · rw [if_pos hqk] at hp
        left; rw [hp]
      · rw [if_neg hqk] at hp
        right; simp [hp]
    · rcases ih hp with h | h
      · left; exact h
      · right; simp [h]

theorem mem_setFields (fs : List (String × Value)) (k : String) (v : Value)
    (p : String × Value) (hp : p ∈ setFields fs k v) : p.1 = k ∨ p ∈ fs := by
  unfold setFields at hp
  by_cases h : hasKey fs k = true
  · rw [if_pos h] at hp
    exact mem_updateEntries fs k v p hp
  · rw [if_neg h] at hp
    rcases List.mem_append.mp hp with hp | hp
    · right; exact hp
    · left; rw [List.mem_singleton.mp hp]

theorem mem_filter_ne (fs : List (String × Value)) (k : String)
    (p : String × Value) (hp : p ∈ fs.filter (fun p => p.1 != k)) : p.1 ≠ k ∧ p ∈ fs := by
  have := List.mem_filter.mp hp
  refine ⟨by simpa using this.2, this.1⟩

end Value

/-- The last value an object literal assigns to key `k` during key-ordered
iteration, if any: later entries win. -/
def lastVal? : List (String × Value) → String → Option Value
  | [], _ => none
  | p :: rest, k =>
    match lastVal? rest k with
    | some v => some v
    | none => if p.1 == k then some p.2 else none

theorem foldlM_setProp_vobj (f : List (String × Value)) (fs : List (String × Value)) :
    (f.foldlM (fun acc p => Value.setProp acc p.1 p.2) (Value.vobj fs)) =
      .ok (.vobj (f.foldl (fun acc p => Value.setFields acc p.1 p.2) fs)) := by
  induction f generalizing fs with
  | nil => rfl
  | cons p rest ih =>
    rw [List.foldlM_cons, List.foldl_cons]
    show (Value.setProp (.vobj fs) p.1 p.2) >>= _ = _
    rw [Value.setProp]
    show rest.foldlM (fun acc p => Value.setProp acc p.1 p.2)
      (Value.vobj (Value.setFields fs p.1 p.2)) = _
    exact ih (Value.setFields fs p.1 p.2)

theorem getProp_foldl_setFields (f : List (String × Value)) (fs : List (String × Value))
    (k : String) :
    Value.getProp (.vobj (f.foldl (fun acc p => Value.setFields acc p.1 p.2) fs)) k =
      (lastVal? f k).getD (Value.getProp (.vobj fs) k) := by
  induction f generalizing fs with
  | nil => rfl
  | cons p rest ih =>
    simp only [List.foldl, lastVal?]
    rw [ih]
    cases hrest : lastVal? rest k with
    | some v => simp
    | none =>
      by_cases hp : p.1 == k
      · have hpk : p.1 = k := by simpa using hp
        simp [hp, hpk, Value.getProp_setFields_self]
      · have hpk : p.1 ≠ k := by simpa using hp
        simp [hp, Value.getProp_setFields_ne fs p.1 k p.2 hpk]

theorem string_data_contains_append (a b : String) (c : Char) :
    (a ++ b).data.contains c = (a.data.contains c || b.data.contains c) := by
  rw [String.data_append]
  induction a.data with
  | nil => simp
  | cons x xs ih => simp [List.contains_cons, ih, Bool.or_assoc]

/-! ### Claim theorems -/

/-- C8: `timeout(ms)` raises the InvalidArgument-kind `TypeError` if and only
if `ms` is not numeric; numeric input updates the stored timeout exactly when
strictly positive and is silently ignored otherwise, so `timeout(-5)` then
`timeout(100)` then `timeout(0)` leaves the effective timeout at 100 and a
stored positive timeout is never zeroed by a non-positive input. -/
theorem C8_timeout_contract :
    (∀ (h : Http) (v : Value), v.isNumber = false →
      h.timeout v = .error (.typeError "Timeout must be a numeric value")) ∧
    (∀ (h : Http) (n : Int), 0 < n → h.timeout (.vnum n) = .ok { h with _timeout := n }) ∧
    (∀ (h : Http) (n : Int), ¬0 < n → h.timeout (.vnum n) = .ok h) ∧
    ((((httpInit "get" "/u").timeout (.vnum (-5))).bind (fun h1 =>
        (h1.timeout (.vnum 100)).bind (fun h2 => h2.timeout (.vnum 0)))).map
      (fun h => h._timeout) = .ok 100) := by
  refine ⟨?_, ?_, ?_, ?_⟩
  · intro h v hv
    cases v <;> first | rfl | simp [Value.isNumber] at hv
  · intro h n hn
    simp [Http.timeout, hn]
  · intro h n hn
    simp [Http.timeout, hn]
  · rfl

/-- Witness for C8 at concrete inputs: a string argument throws, 100 is
stored, 0 is ignored. -/
theorem C8_timeout_contract_witness :
    (httpInit "get" "/u").timeout (.vstr "soon") =
      .error (.typeError "Timeout must be a numeric value") ∧
    (httpInit "get" "/u").timeout (.vnum 100) =
      .ok { httpInit "get" "/u" with _timeout := 100 } ∧
    (httpInit "get" "/u").timeout (.vnum 0) = .ok (httpInit "get" "/u") :=
  ⟨C8_timeout_contract.1 (httpInit "get" "/u") (.vstr "soon") (by rfl),
   C8_timeout_contract.2.1 (httpInit "get" "/u") 100 (by decide),
   C8_timeout_contract.2.2.1 (httpInit "get" "/u") 0 (by decide)⟩

/-- C9: construction throws the InvalidArgument-kind `TypeError` if and only
if the method or the URL is not a string, the method check first (a
non-string method is reported even when the URL is also non-string); the
constructor is a pure function of its two arguments, so no transport
interaction can occur before the throw. -/
theorem C9_construction_validation :
    (∀ (m u : Value), m.isString = false →
      mkHttp m u = .error (.typeError "HTTP method must be a string")) ∧
    (∀ (m u : Value), m.isString = true → u.isString = false →
      mkHttp m u = .error (.typeError "HTTP URL must be a string")) ∧
    (∀ (s t : String), mkHttp (.vstr s) (.vstr t) = .ok (httpInit s t)) := by
  refine ⟨?_, ?_, ?_⟩
  · intro m u hm
    simp [mkHttp, hm]
  · intro m u hm hu
    simp [mkHttp, hm, hu]
  · intro s t
    rfl

/-- Witness for C9: a numeric method is reported as the method error even
though the URL is also non-string, and a numeric URL after a string method
is reported as the URL error. -/
theorem C9_construction_validation_witness :
    mkHttp (.vnum 1) (.vnum 2) = .error (.typeError "HTTP method must be a string") ∧
    mkHttp (.vstr "get") (.vnum 2) = .error (.typeError "HTTP URL must be a string") :=
  ⟨C9_construction_validation.1 (.vnum 1) (.vnum 2) (by rfl),
   C9_construction_validation.2.1 (.vstr "get") (.vnum 2) (by rfl) (by rfl)⟩

/-- C10: after the accumulated body has been wholesale-replaced by a
non-object, non-array value, a later `body` call with an object argument
holding at least one key does not reset or replace the body: the first
strict-mode assignment onto the non-object accumulated body throws a
`TypeError`. -/
theorem C10_object_after_primitive_body_throws :
    ∀ (h : Http) (p : Value) (k : String) (v : Value) (rest : List (String × Value)),
      p.isObject = false → p.isArray = false →
      ((h.body p).bind (fun h1 => h1.body (.vobj ((k, v) :: rest)))) =
        .error (.typeError "Cannot create property on a non-object") := by
  intro h p k v rest hobj harr
  have h1 : h.body p = .ok { h with _body := p } := by
    cases p with
    | vobj fs => exact absurd hobj (by simp [Value.isObject])
    | vundefined => rfl
    | vnull => rfl
    | vbool b => rfl
    | vnum n => rfl
    | vstr s => rfl
    | varr es => rfl
  rw [h1]
  have h2 : Value.setProp p k v =
      .error (.typeError "Cannot create property on a non-object") := by
    cases p with
    | vobj fs => exact absurd hobj (by simp [Value.isObject])
    | varr es => exact absurd harr (by simp [Value.isArray])
    | vundefined => rfl
    | vnull => rfl
    | vbool b => rfl
    | vnum n => rfl
    | vstr s => rfl
  show Http.body { h with _body := p } (.vobj ((k, v) :: rest)) = _
  simp only [Http.body, List.foldlM_cons, h2]
  rfl

/-- Witness for C10: replacing the body with the string value and then
calling `body` with a one-key object throws. -/
theorem C10_object_after_primitive_body_throws_witness :
    (((httpInit "get" "/u").body (.vstr "raw")).bind (fun h1 =>
      h1.body (.vobj [("a", .vnum 1)]))) =
      .error (.typeError "Cannot create property on a non-object") :=
  C10_object_after_primitive_body_throws (httpInit "get" "/u") (.vstr "raw") "a" (.vnum 1) []
    (by rfl) (by rfl)

/-- C3: with the response-expectation flag set false, a successful
fire-and-forget dispatch returns nothing and invokes no callback or promise;
a thrown transport error is delivered to the callback as `(null, error)`
when one is supplied and otherwise returned as a rejected promise built with
the configured promise constructor, never thrown past the `send` boundary. -/
theorem C3_fire_and_forget_paths :
    ∀ (h : Http) (tr : Transport), h._expectResponse = .vbool false →
      ((tr.sendThrows = none → ∀ (hasCb : Bool), h.send hasCb tr = .silent) ∧
       (∀ (e : Value), tr.sendThrows = some e →
          h.send true tr = .cbFired .vnull e ∧ h.send false tr = .rejectedPromise e)) := by
  intro h tr hexp
  constructor
  · intro hsend hasCb
    simp [Http.send, hexp, Value.truthy, hsend]
  · intro e hsend
    constructor <;> simp [Http.send, hexp, Value.truthy, hsend]

/-- Witness for C3: with a transport whose send throws the error value E and
no callback supplied, the result is a rejected promise whose reason is E. -/
theorem C3_fire_and_forget_paths_witness :
    ((httpInit "get" "/u").expectResponse (.vbool false)).send false
      { sendThrows := some (.vstr "E"), requestReply := (.vnull, .vnull),
        requestOutcome := .ok .vnull } = .rejectedPromise (.vstr "E") :=
  ((C3_fire_and_forget_paths ((httpInit "get" "/u").expectResponse (.vbool false))
    { sendThrows := some (.vstr "E"), requestReply := (.vnull, .vnull),
      requestOutcome := .ok .vnull } (by rfl)).2 (.vstr "E") (by rfl)).2

/-- C4: with the response-expectation flag truthy, a supplied callback makes
`send` dispatch the request with the envelope, the accumulated timeout and a
wrapper forwarding the translated response and translated error positionally
to the caller callback; without a callback the returned promise resolves
with the translated fulfillment value and re-rejects with the translated
rejection reason (never swallowed). -/
theorem C4_expect_response_translation :
    ∀ (h : Http) (tr : Transport) (res err : Value),
      h._expectResponse.truthy = true →
      ((translateResponse tr.requestReply.1 = .ok res →
        translateResponse tr.requestReply.2 = .ok err →
        h.send true tr = .requestedCb h.envelope h._timeout res err) ∧
       (∀ (v : Value), tr.requestOutcome = .ok v → translateResponse v = .ok res →
        h.send false tr = .promised h.envelope h._timeout (.ok res)) ∧
       (∀ (v : Value), tr.requestOutcome = .error v → translateResponse v = .ok err →
        h.send false tr = .promised h.envelope h._timeout (.error err))) := by
  intro h tr res err hexp
  refine ⟨?_, ?_, ?_⟩
  · intro h1 h2
    simp [Http.send, hexp, h1, h2]
  · intro v hv ht
    simp [Http.send, hexp, hv, ht]
  · intro v hv ht
    simp [Http.send, hexp, hv, ht]

/-- Witness for C4: a transport reply with private-style fields is translated
before reaching the caller callback, and a rejected promise flow re-rejects
with the translated reason. -/
theorem C4_expect_response_translation_witness :
    (httpInit "get" "/u").send true
      { sendThrows := none,
        requestReply := (.vobj [("_s", .vnum 200), ("_b", .varr [.vnum 1])], .vnull),
        requestOutcome := .ok .vnull } =
      .requestedCb ((httpInit "get" "/u").envelope) 0
        (.vobj [("status", .vnum 200), ("body", .varr [.vnum 1])]) .vnull ∧
    (httpInit "get" "/u").send false
      { sendThrows := none, requestReply := (.vnull, .vnull),
        requestOutcome := .error (.vobj [("_s", .vnum 500), ("_b", .vstr "bad")]) } =
      .promised ((httpInit "get" "/u").envelope) 0
        (.error (.vobj [("status", .vnum 500), ("body", .vstr "bad")])) :=
  ⟨(C4_expect_response_translation (httpInit "get" "/u")
      { sendThrows := none,
        requestReply := (.vobj [("_s", .vnum 200), ("_b", .varr [.vnum 1])], .vnull),
        requestOutcome := .ok .vnull }
      (.vobj [("status", .vnum 200), ("body", .varr [.vnum 1])]) .vnull (by rfl)).1
    (by rfl) (by rfl),
   ((C4_expect_response_translation (httpInit "get" "/u")
      { sendThrows := none, requestReply := (.vnull, .vnull),
        requestOutcome := .error (.vobj [("_s", .vnum 500), ("_b", .vstr "bad")]) }
      .vnull (.vobj [("status", .vnum 500), ("body", .vstr "bad")]) (by rfl)).2.2
    (.vobj [("_s", .vnum 500), ("_b", .vstr "bad")]) (by rfl) (by rfl))⟩

/-- A `body` call whose argument is not a plain mapping overwrites the
accumulated body outright. -/
theorem body_replace (h : Http) (b : Value) (hb : b.isObject = false) :
    h.body b = .ok { h with _body := b } := by
  cases b with
  | vobj fs => exact absurd hb (by simp [Value.isObject])
  | vundefined => rfl
  | vnull => rfl
  | vbool x => rfl
  | vnum x => rfl
  | vstr x => rfl
  | varr x => rfl

/-- A `body` call with a plain mapping argument, when the accumulated body is
itself a plain mapping, folds the strict-mode assignments over the entries. -/
theorem body_merge (h : Http) (fs f : List (String × Value)) (hb : h._body = .vobj fs) :
    h.body (.vobj f) =
      .ok { h with _body := .vobj (f.foldl (fun acc p => Value.setFields acc p.1 p.2) fs) } := by
  simp only [Http.body, hb, foldlM_setProp_vobj]
  rfl

/-- C5: a plain-mapping argument to `body` shallow-merges its keys into the
accumulated body (iteration order, last write wins); any other argument
replaces the accumulated body outright with no validation; hence two
non-object calls end with the second value, and for two object calls from a
fresh builder the keys present only in the first call keep their first-call
values. -/
theorem C5_body_merge_or_replace :
    (∀ (h : Http) (b : Value), b.isObject = false → h.body b = .ok { h with _body := b }) ∧
    (∀ (h : Http) (fs f : List (String × Value)) (k : String), h._body = .vobj fs →
      (h.body (.vobj f)).map (fun h2 => h2._body.getProp k) =
        .ok ((lastVal? f k).getD (Value.getProp (.vobj fs) k))) ∧
    (∀ (h : Http) (b1 b2 : Value), b1.isObject = false → b2.isObject = false →
      ((h.body b1).bind (fun h1 => h1.body b2)).map (fun h2 => h2._body) = .ok b2) ∧
    (∀ (m u : String) (f1 f2 : List (String × Value)) (k : String),
      lastVal? f2 k = none →
      (((httpInit m u).body (.vobj f1)).bind (fun h1 => h1.body (.vobj f2))).map
          (fun h2 => h2._body.getProp k) =
        .ok ((lastVal? f1 k).getD .vundefined)) := by
  refine ⟨body_replace, ?_, ?_, ?_⟩
  · intro h fs f k hb
    rw [body_merge h fs f hb]
    simp [Except.map, getProp_foldl_setFields]
  · intro h b1 b2 h1 h2
    rw [body_replace h b1 h1]
    show ((Http.body { h with _body := b1 } b2).map (fun h2 => h2._body)) = .ok b2
    rw [body_replace { h with _body := b1 } b2 h2]
    rfl
  · intro m u f1 f2 k hf2
    rw [body_merge (httpInit m u) [] f1 rfl]
    show (Http.body _ (.vobj f2)).map (fun h2 => h2._body.getProp k) = _
    rw [body_merge _ (f1.foldl (fun acc p => Value.setFields acc p.1 p.2) []) f2 rfl]
    simp only [Except.map]
    rw [getProp_foldl_setFields, hf2, Option.getD_none, getProp_foldl_setFields]
    rfl

/-- Witness for C5: replacing with the string then the numeric value leaves
the numeric value; merging two objects keeps a key only present in the first
call at its first-call value. -/
theorem C5_body_merge_or_replace_witness :
    (((httpInit "get" "/u").body (.vstr "one")).bind (fun h1 =>
      h1.body (.vnum 2))).map (fun h2 => h2._body) = .ok (.vnum 2) ∧
    (((httpInit "get" "/u").body (.vobj [("a", .vnum 1), ("b", .vnum 2)])).bind (fun h1 =>
      h1.body (.vobj [("b", .vnum 3)]))).map (fun h2 => h2._body.getProp "a") =
      .ok (.vnum 1) :=
  ⟨C5_body_merge_or_replace.2.2.1 (httpInit "get" "/u") (.vstr "one") (.vnum 2)
      (by rfl) (by rfl),
   C5_body_merge_or_replace.2.2.2 "get" "/u" [("a", .vnum 1), ("b", .vnum 2)]
      [("b", .vnum 3)] "a" (by rfl)⟩

/-- C6: `query` is a no-op on falsy input; a (truthy) string is appended
verbatim as the query string; an array is joined with ampersands and
appended; a mapping is appended as percent-encoded key=value pairs joined
with ampersands (so a space becomes %20 character for character); any other
truthy shape throws the InvalidArgument-kind `TypeError` without modifying
the URL. -/
theorem C6_query_shapes :
    (∀ (h : Http) (q : Value), q.truthy = false → h.query q = .ok h) ∧
    (∀ (h : Http) (s : String), (Value.vstr s).truthy = true →
      h.query (.vstr s) = .ok { h with _url := joinUrl h._url s }) ∧
    (∀ (h : Http) (elems : List Value),
      h.query (.varr elems) = .ok { h with _url := joinUrl h._url (jsJoinList "&" elems) }) ∧
    (∀ (h : Http) (fields : List (String × Value)),
      h.query (.vobj fields) = .ok { h with _url := joinUrl h._url (String.intercalate "&"
        (fields.map (fun p =>
          encodeURIComponent p.1 ++ "=" ++ encodeURIComponent (jsToString p.2)))) }) ∧
    ((httpInit "get" "/u").query (.vobj [("a", .vstr "1 2"), ("b", .vstr "x")]) =
      .ok { httpInit "get" "/u" with _url := "/u?a=1%202&b=x" }) ∧
    (∀ (h : Http) (q : Value), q.truthy = true → q.isString = false → q.isArray = false →
      q.isObject = false →
      h.query q = .error (.typeError "Query must be a url encoded string, object, or array")) := by
  refine ⟨?_, ?_, ?_, ?_, ?_, ?_⟩
  · intro h q hq
    simp [Http.query, hq]
  · intro h s hs
    simp [Http.query, hs, queryStringOf]
  · intro h elems
    simp [Http.query, Value.truthy, queryStringOf]
  · intro h fields
    simp [Http.query, Value.truthy, queryStringOf]
  · simp [Http.query, Value.truthy, queryStringOf, jsToString]
    rfl
  · intro h q hq hs ha ho
    cases q with
    | vstr s => exact absurd hs (by simp [Value.isString])
    | varr es => exact absurd ha (by simp [Value.isArray])
    | vobj fs => exact absurd ho (by simp [Value.isObject])
    | vundefined => simp [Value.truthy] at hq
    | vnull => simp [Value.truthy] at hq
    | vbool b => simp [Http.query, hq, queryStringOf]
    | vnum n => simp [Http.query, hq, queryStringOf]

/-- Witness for C6: a falsy query value (empty string) is a no-op, a truthy
string is appended, and a boolean query input throws. -/
theorem C6_query_shapes_witness :
    (httpInit "get" "/u").query (.vstr "") = .ok (httpInit "get" "/u") ∧
    (httpInit "get" "/u").query (.vstr "a=1") =
      .ok { httpInit "get" "/u" with _url := joinUrl "/u" "a=1" } ∧
    (httpInit "get" "/u").query (.vbool true) =
      .error (.typeError "Query must be a url encoded string, object, or array") :=
  ⟨C6_query_shapes.1 (httpInit "get" "/u") (.vstr "") (by rfl),
   C6_query_shapes.2.1 (httpInit "get" "/u") "a=1" (by rfl),
   C6_query_shapes.2.2.2.2.2 (httpInit "get" "/u") (.vbool true)
     (by rfl) (by rfl) (by rfl) (by rfl)⟩

/-- C7: the single separator rule — an appended query string joins with an
ampersand when the URL already contains a question mark and with a question
mark otherwise — so two consecutive valid query calls produce
url + ? + q1 + & + q2 on a query-free URL and
base + ? + q0 + & + q1 + & + q2 on a URL already carrying query q0. -/
theorem C7_separator_rule :
    ∀ (h : Http) (v1 v2 : Value) (q1 q2 : String),
      v1.truthy = true → v2.truthy = true →
      queryStringOf v1 = .ok q1 → queryStringOf v2 = .ok q2 →
      ((h._url.data.contains (Char.ofNat 63) = false →
        ((h.query v1).bind (fun x => x.query v2)).map (fun x => x._url) =
          .ok (h._url ++ "?" ++ q1 ++ "&" ++ q2)) ∧
       (∀ (base q0 : String), h._url = base ++ "?" ++ q0 →
        ((h.query v1).bind (fun x => x.query v2)).map (fun x => x._url) =
          .ok (base ++ "?" ++ q0 ++ "&" ++ q1 ++ "&" ++ q2))) := by
  intro h v1 v2 q1 q2 ht1 ht2 hq1 hq2
  have hqm : ("?".data.contains (Char.ofNat 63)) = true := rfl
  constructor
  · intro hurl
    simp only [Http.query, ht1, ht2, if_true, hq1, hq2]
    show Except.map _ (Except.bind (.ok _) _) = _
    simp only [Except.bind, Except.map]
    simp only [joinUrl, string_data_contains_append, hurl, hqm]
    simp
  · intro base q0 hbase
    simp only [Http.query, ht1, ht2, if_true, hq1, hq2]
    show Except.map _ (Except.bind (.ok _) _) = _
    simp only [Except.bind, Except.map]
    simp only [joinUrl, hbase, string_data_contains_append, hqm]
    simp

/-- Witness for C7: two string queries on a query-free URL use one question
mark then an ampersand, and on a URL already carrying a query they use only
ampersands. -/
theorem C7_separator_rule_witness :
    (((httpInit "get" "/items").query (.vstr "a=1")).bind (fun x =>
      x.query (.vstr "b=2"))).map (fun x => x._url) = .ok "/items?a=1&b=2" ∧
    (((httpInit "get" "/items?q=0").query (.vstr "a=1")).bind (fun x =>
      x.query (.vstr "b=2"))).map (fun x => x._url) = .ok "/items?q=0&a=1&b=2" :=
  ⟨(C7_separator_rule (httpInit "get" "/items") (.vstr "a=1") (.vstr "b=2") "a=1" "b=2"
      (by rfl) (by rfl) (by rfl) (by rfl)).1 (by rfl),
   (C7_separator_rule (httpInit "get" "/items?q=0") (.vstr "a=1") (.vstr "b=2") "a=1" "b=2"
      (by rfl) (by rfl) (by rfl) (by rfl)).2 "/items" "q=0" (by rfl)⟩

/-- The field list `translateResponse` produces on a plain object: assign
`status` from `_s`, delete `_s`, assign `body` from `_b` (read after the
first delete), delete `_b`. -/
def translatedFields (fs : List (String × Value)) : List (String × Value) :=
  let fs1 := Value.setFields fs "status" (Value.getProp (.vobj fs) "_s")
  let fs2 := fs1.filter (fun p => p.1 != "_s")
  let fs3 := Value.setFields fs2 "body" (Value.getProp (.vobj fs2) "_b")
  fs3.filter (fun p => p.1 != "_b")

theorem translateResponse_vobj (fs : List (String × Value)) :
    translateResponse (.vobj fs) = .ok (.vobj (translatedFields fs)) := rfl

theorem getProp_translatedFields_status (fs : List (String × Value)) :
    Value.getProp (.vobj (translatedFields fs)) "status" =
      Value.getProp (.vobj fs) "_s" := by
  show Value.getProp (.vobj ((Value.setFields ((Value.setFields fs "status"
      (Value.getProp (.vobj fs) "_s")).filter (fun p => p.1 != "_s")) "body"
      (Value.getProp (.vobj ((Value.setFields fs "status"
        (Value.getProp (.vobj fs) "_s")).filter (fun p => p.1 != "_s"))) "_b")).filter
      (fun p => p.1 != "_b"))) "status" = _
  rw [Value.getProp_filter_ne _ "_b" "status" (by decide),
    Value.getProp_setFields_ne _ "body" "status" _ (by decide),
    Value.getProp_filter_ne _ "_s" "status" (by decide),
    Value.getProp_setFields_self]

theorem getProp_translatedFields_body (fs : List (String × Value)) :
    Value.getProp (.vobj (translatedFields fs)) "body" =
      Value.getProp (.vobj fs) "_b" := by
  show Value.getProp (.vobj ((Value.setFields ((Value.setFields fs "status"
      (Value.getProp (.vobj fs) "_s")).filter (fun p => p.1 != "_s")) "body"
      (Value.getProp (.vobj ((Value.setFields fs "status"
        (Value.getProp (.vobj fs) "_s")).filter (fun p => p.1 != "_s"))) "_b")).filter
      (fun p => p.1 != "_b"))) "body" = _
  rw [Value.getProp_filter_ne _ "_b" "body" (by decide), Value.getProp_setFields_self,
    Value.getProp_filter_ne _ "_s" "_b" (by decide),
    Value.getProp_setFields_ne _ "status" "_b" _ (by decide)]

theorem translatedFields_no_private_keys (fs : List (String × Value)) :
    ∀ p ∈ translatedFields fs, p.1 ≠ "_s" ∧ p.1 ≠ "_b" := by
  intro p hp
  unfold translatedFields at hp
  have h1 := Value.mem_filter_ne _ "_b" p hp
  refine ⟨?_, h1.1⟩
  rcases Value.mem_setFields _ "body" _ p h1.2 with hb | hmem
  · rw [hb]; decide
  · exact (Value.mem_filter_ne _ "_s" p hmem).1

/-- C2 counterexample: the claim quantifies over every truthy value, but the
translator applied to the truthy primitive 5 throws a strict-mode
`TypeError` (property creation on a primitive) instead of renaming fields
and returning the value. -/
theorem C2_translate_response_cex :
    Value.truthy (.vnum 5) = true ∧
    translateResponse (.vnum 5) =
      .error (.typeError "Cannot create property on a non-object") :=
  ⟨rfl, rfl⟩

/-- C2 (amended to truthy plain-mapping values): on any plain object the
translator renames the private-style `_s` and `_b` fields to `status` and
`body` (no `_s` or `_b` key survives, other keys are untouched in place) and
returns the same object; on the falsy values `null` and `undefined` it
returns the value unchanged; on the concrete example the object
`\x7b_s: 200, _b: \x7bok: true\x7d\x7d` becomes
`\x7bstatus: 200, body: \x7bok: true\x7d\x7d`. -/
theorem C2_translate_response :
    (∀ (fs : List (String × Value)), ∃ g : List (String × Value),
      translateResponse (.vobj fs) = .ok (.vobj g) ∧
      Value.getProp (.vobj g) "status" = Value.getProp (.vobj fs) "_s" ∧
      Value.getProp (.vobj g) "body" = Value.getProp (.vobj fs) "_b" ∧
      (∀ p ∈ g, p.1 ≠ "_s" ∧ p.1 ≠ "_b")) ∧
    (translateResponse .vnull = .ok .vnull) ∧
    (translateResponse .vundefined = .ok .vundefined) ∧
    (translateResponse (.vobj [("_s", .vnum 200), ("_b", .vobj [("ok", .vbool true)])]) =
      .ok (.vobj [("status", .vnum 200), ("body", .vobj [("ok", .vbool true)])])) := by
  refine ⟨?_, rfl, rfl, rfl⟩
  intro fs
  exact ⟨translatedFields fs, translateResponse_vobj fs,
    getProp_translatedFields_status fs, getProp_translatedFields_body fs,
    translatedFields_no_private_keys fs⟩

/-- The keys of a plain-object value in insertion order. -/
def objKeys : Value → List String
  | .vobj fields => fields.map Prod.fst
  | _ => []

/-- The end-to-end builder chain of the claim: a get request on /items with
query page 2 and a 500 millisecond timeout. -/
def itemsScenario : Except JsError Http :=
  (get (.vstr "/items")).bind (fun h =>
    (h.query (.vobj [("page", .vnum 2)])).bind (fun h2 => h2.timeout (.vnum 500)))

theorem itemsScenario_eq :
    itemsScenario = .ok { httpInit "get" "/items?page=2" with _timeout := 500 } := by
  have hjs : jsToString (.vnum 2) = "2" := by simp [jsToString]; rfl
  simp only [itemsScenario, get, mkHttp, Value.isString, Bool.not_true, Bool.not_false,
    if_false, if_true, Except.bind, Http.query, Value.truthy, queryStringOf,
    List.map_cons, List.map_nil, hjs, Http.timeout]
  rfl

/-- Whenever the response-expectation value is truthy, the request operation
receives exactly the wire envelope and the accumulated timeout, whatever the
transport does and whether or not a callback is supplied. -/
theorem send_requestedWith (h : Http) (hasCb : Bool) (tr : Transport)
    (hexp : h._expectResponse.truthy = true) :
    (h.send hasCb tr).requestedWith = some (h.envelope, h._timeout) := by
  cases hasCb with
  | true =>
    simp only [Http.send, hexp, Bool.not_true, Bool.false_eq_true, if_false, if_true]
    cases h1 : translateResponse tr.requestReply.1 with
    | error e => simp [h1, SendEffect.requestedWith]
    | ok r =>
      cases h2 : translateResponse tr.requestReply.2 with
      | error e => simp [h1, h2, SendEffect.requestedWith]
      | ok e => simp [h1, h2, SendEffect.requestedWith]
  | false =>
    simp only [Http.send, hexp, Bool.not_true, Bool.false_eq_true, if_false]
    cases hout : tr.requestOutcome with
    | ok r =>
      cases h1 : translateResponse r with
      | error e => simp [hout, h1, SendEffect.requestedWith]
      | ok v => simp [hout, h1, SendEffect.requestedWith]
    | error e =>
      cases h1 : translateResponse e with
      | error e2 => simp [hout, h1, SendEffect.requestedWith]
      | ok v => simp [hout, h1, SendEffect.requestedWith]

/-- C1 counterexample: in the claimed scenario the envelope built by `send`
is the wire object with keys `_m`, `_u`, `_b` — not a mapping with the keys
`method`, `url`, `body` — so the claimed envelope equality fails. -/
theorem C1_envelope_keys_cex :
    itemsScenario.map (fun h => h.envelope) =
      .ok (.vobj [("_m", .vstr "get"), ("_u", .vstr "/items?page=2"), ("_b", .vobj [])]) ∧
    itemsScenario.map (fun h => objKeys h.envelope) = .ok ["_m", "_u", "_b"] ∧
    (["_m", "_u", "_b"] : List String) ≠ ["method", "url", "body"] := by
  refine ⟨?_, ?_, by decide⟩
  · rw [itemsScenario_eq]; rfl
  · rw [itemsScenario_eq]; rfl

/-- C1 (amended to the wire key names): the terminal send serializes the
accumulated state into an envelope with exactly the three keys `_m`, `_u`
and `_b`, holding the method string, the URL (with the appended query
string) and the accumulated body, and this envelope with the accumulated
timeout is what every request dispatch hands to the transport; in the
claimed scenario the envelope is
`\x7b_m: "get", _u: "/items?page=2", _b: \x7b\x7d\x7d` with timeout
argument 500, for every transport and either completion style. -/
theorem C1_wire_envelope :
    ∀ (tr : Transport) (hasCb : Bool),
      itemsScenario.map (fun h => (h.send hasCb tr).requestedWith) =
        .ok (some (.vobj [("_m", .vstr "get"), ("_u", .vstr "/items?page=2"),
          ("_b", .vobj [])], 500)) := by
  intro tr hasCb
  rw [itemsScenario_eq]
  show Except.ok ((Http.send { httpInit "get" "/items?page=2" with _timeout := 500 }
    hasCb tr).requestedWith) = _
  rw [send_requestedWith { httpInit "get" "/items?page=2" with _timeout := 500 }
    hasCb tr rfl]
  rfl

/-- Witness for C2 at the concrete example: the object with private-style
fields is renamed losslessly. -/
theorem C2_translate_response_witness :
    translateResponse (.vobj [("_s", .vnum 200), ("_b", .vobj [("ok", .vbool true)])]) =
      .ok (.vobj [("status", .vnum 200), ("body", .vobj [("ok", .vbool true)])]) :=
  C2_translate_response.2.2.2

/-- Witness for C1 at a concrete transport in promise flow. -/
theorem C1_wire_envelope_witness :
    itemsScenario.map (fun h => (h.send false
      { sendThrows := none, requestReply := (.vnull, .vnull),
        requestOutcome := .ok .vnull }).requestedWith) =
      .ok (some (.vobj [("_m", .vstr "get"), ("_u", .vstr "/items?page=2"),
        ("_b", .vobj [])], 500)) :=
  C1_wire_envelope
    { sendThrows := none, requestReply := (.vnull, .vnull), requestOutcome := .ok .vnull }
    false

end RapportHttp
